import Mathlib

/-!
# Verification of the firebase-auth token validator

A shallow embedding of `src/lib.rs` (crate `firebase-auth`): the data model
(`FirebaseClaims`, `ValidationError`, `Keys`, `TokenValidator`) and the single
operation `TokenValidator.validate`, together with theorems settling the
specification claims about it.

The repository delegates JWT parsing/verification to the external
`jsonwebtoken` crate and the key-set fetch to an HTTP client; the spec treats
both as injected/trusted collaborators.  Those collaborators are modelled
here from the contracts the spec assigns to them; everything else is
translated directly from `src/lib.rs`.
-/

namespace FirebaseAuth

/-- Signature algorithm tag (jsonwebtoken `Algorithm`); the validator fixes
RS256, other values only matter as a mismatch possibility. -/
inductive Algorithm where
  | RS256
  | other (name : String)
deriving DecidableEq, Repr

/-- Decoded JWT header: the fields `validate` reads (`decode_header` also
returns `alg`; `kid` is optional in the wire format). -/
structure Header where
  alg : Algorithm
  kid : Option String
deriving DecidableEq, Repr

/-- `FirebaseIdentities` from src/lib.rs: optional map of provider
identities (modelled as an association list) and optional sign-in provider. -/
structure FirebaseIdentities where
  identities : Option (List (String × List String))
  sign_in_provider : Option String
deriving DecidableEq, Repr

/-- `FirebaseClaims` from src/lib.rs: the decoded token payload. -/
structure FirebaseClaims where
  exp : Nat
  iat : Option Nat
  aud : Option String
  iss : Option String
  sub : Option String
  auth_time : Option Nat
  name : Option String
  picture : Option String
  email : Option String
  email_verified : Option Bool
  user_id : Option String
  firebase : Option FirebaseIdentities
deriving DecidableEq, Repr

/-- Kinds of errors produced by the external `jsonwebtoken` library, as far
as the validator and the spec distinguish them. -/
inductive JwtErrorKind where
  | invalidToken
  | invalidAlgorithm
  | invalidSignature
  | json
  | expiredSignature
  | invalidIssuer
  | invalidAudience
deriving DecidableEq, Repr

/-- The boxed `inner_error` of `ValidationError`: one of the three error
types `ValidationError` has a `From` impl for in src/lib.rs. -/
inductive InnerError where
  | jwt (k : JwtErrorKind)
  | sendRequest (msg : String)
  | jsonPayload (msg : String)
deriving DecidableEq, Repr

/-- `ValidationError` from src/lib.rs: optional description plus optional
boxed underlying error. -/
structure ValidationError where
  description : Option String
  inner_error : Option InnerError
deriving DecidableEq, Repr

/-- `ValidationError::new` from src/lib.rs. -/
def ValidationError.new (d : String) : ValidationError :=
  { description := some d, inner_error := none }

/-- `From<jsonwebtoken::errors::Error> for ValidationError`. -/
def ValidationError.fromJwt (k : JwtErrorKind) : ValidationError :=
  { description := none, inner_error := some (InnerError.jwt k) }

/-- `From<SendRequestError> for ValidationError`. -/
def ValidationError.fromSendRequest (m : String) : ValidationError :=
  { description := none, inner_error := some (InnerError.sendRequest m) }

/-- `From<JsonPayloadError> for ValidationError`. -/
def ValidationError.fromJsonPayload (m : String) : ValidationError :=
  { description := none, inner_error := some (InnerError.jsonPayload m) }

/-- A key record of the key-set document: `HashMap<String, String>` in
src/lib.rs, modelled as an association list (first binding wins). -/
def KeyRecord : Type := List (String × String)

instance : DecidableEq KeyRecord := by
  unfold KeyRecord
  exact inferInstance

/-- `HashMap::get` on a key record. -/
def KeyRecord.get (r : KeyRecord) (k : String) : Option String :=
  match r with
  | [] => none
  | (k₀, v₀) :: rest => if k₀ = k then some v₀ else KeyRecord.get rest k

/-- `Keys` from src/lib.rs: the parsed key-set document, an ordered list of
key records. -/
structure Keys where
  keys : List KeyRecord
deriving DecidableEq

/-- `TokenValidator` from src/lib.rs: the three configuration strings. -/
structure TokenValidator where
  firebase_project_id : String
  firebase_project_issuer : String
  firebase_public_keys_jwk_url : String
deriving DecidableEq, Repr

/-- jsonwebtoken `Validation`, restricted to the fields the validator sets
or relies on: accepted algorithms, required audience set, required issuer,
and expiration enforcement (on by default in `Validation::new`). -/
structure Validation where
  algorithms : List Algorithm
  aud : Option (List String)
  iss : Option String
  validate_exp : Bool
deriving DecidableEq, Repr

/-- `Validation::new(alg)`: that algorithm only, no aud/iss requirement,
expiration validation enabled. -/
def Validation.new (alg : Algorithm) : Validation :=
  { algorithms := [alg], aud := none, iss := none, validate_exp := true }

/-- Modelled from the spec: the external JWT library's view of a compact
token string (the token string itself and the cryptographic primitives are
outside src/).  A token is characterised by whether its header segment
decodes (segment count, base64url, header JSON), the decoded header, whether
its payload deserializes as `FirebaseClaims`, the payload, and under which
RSA key components (modulus `n`, exponent `e`) its RSA-256 signature
verifies. -/
structure Token where
  header_ok : Bool
  header : Header
  payload_ok : Bool
  payload : FirebaseClaims
  sig_valid : String → String → Bool

/-- Modelled from the spec: jsonwebtoken `decode_header` — decode the
token's header segment without verifying the signature; a malformed header
segment is a malformed-token error. -/
def decode_header (t : Token) : Except JwtErrorKind Header :=
  if t.header_ok then Except.ok t.header else Except.error JwtErrorKind.invalidToken

/-- Modelled from the spec: the claim checks of jsonwebtoken `decode`
(§4 step 4): expiration strictly in the future, audience a member of the
required audience set, issuer equal to the required issuer. -/
def validateClaims (c : FirebaseClaims) (v : Validation) (now : Nat) : Except JwtErrorKind Unit :=
  if v.validate_exp ∧ c.exp ≤ now then Except.error JwtErrorKind.expiredSignature
  else match v.iss with
  | some required_iss =>
    if c.iss = some required_iss then
      match v.aud with
      | some required_aud =>
        match c.aud with
        | some a => if a ∈ required_aud then Except.ok () else Except.error JwtErrorKind.invalidAudience
        | none => Except.error JwtErrorKind.invalidAudience
      | none => Except.ok ()
    else Except.error JwtErrorKind.invalidIssuer
  | none =>
    match v.aud with
    | some required_aud =>
      match c.aud with
      | some a => if a ∈ required_aud then Except.ok () else Except.error JwtErrorKind.invalidAudience
      | none => Except.error JwtErrorKind.invalidAudience
    | none => Except.ok ()

/-- Modelled from the spec: jsonwebtoken `decode::<FirebaseClaims>` —
"decode-and-verify(token, key, validation-policy) → claims | error": parse,
check the declared algorithm is accepted, verify the RSA-256 signature under
the key components, deserialize the payload, then run the claim checks. -/
def decode (t : Token) (n e : String) (v : Validation) (now : Nat) :
    Except JwtErrorKind FirebaseClaims :=
  if ¬ t.header_ok then Except.error JwtErrorKind.invalidToken
  else if ¬ t.header.alg ∈ v.algorithms then Except.error JwtErrorKind.invalidAlgorithm
  else if ¬ t.sig_valid n e then Except.error JwtErrorKind.invalidSignature
  else if ¬ t.payload_ok then Except.error JwtErrorKind.json
  else match validateClaims t.payload v now with
  | Except.ok _ => Except.ok t.payload
  | Except.error k => Except.error k

/-- Outcome of the single outbound key-set fetch
(`client.get(url).send().await` then `response.json::<Keys>().await`):
a transport failure, a body that does not parse as `Keys`, or a key set. -/
inductive FetchOutcome where
  | sendError (msg : String)
  | jsonError (msg : String)
  | ok (keys : Keys)

/-- Result of a call to `validate`: the Rust `Result`, plus a `panic`
outcome for an unchecked fault escaping the call (e.g. `Option::unwrap` on
`None`). -/
inductive VResult where
  | ok (claims : FirebaseClaims)
  | err (e : ValidationError)
  | panic (msg : String)
deriving DecidableEq, Repr

/-- The body of the `for key in keys.keys` loop of `validate` applied to one
selected record: `decode` with the record's `n`/`e` components, where either
component being absent is an `unwrap` of `None`, i.e. a panic. -/
def processKey (key : KeyRecord) (t : Token) (v : Validation) (now : Nat) : VResult :=
  match key.get "n" with
  | none => VResult.panic "called Option unwrap on a None value"
  | some n =>
    match key.get "e" with
    | none => VResult.panic "called Option unwrap on a None value"
    | some e =>
      match decode t n e v now with
      | Except.ok claims => VResult.ok claims
      | Except.error k => VResult.err (ValidationError.fromJwt k)

/-- The `for key in keys.keys` loop of `validate`: scan the records in
order; a record without a `kid` field is skipped; the first record whose
`kid` equals the header's key identifier is processed and its result
returned; if the scan ends, the key-not-found error is returned. -/
def lookupLoop (ks : List KeyRecord) (kid : String) (t : Token) (v : Validation) (now : Nat) :
    VResult :=
  match ks with
  | [] =>
    VResult.err (ValidationError.new
      "token failed validation as the referenced public key could not be found")
  | key :: rest =>
    match KeyRecord.get key "kid" with
    | some cert_kid =>
      if kid = cert_kid then processKey key t v now
      else lookupLoop rest kid t v now
    | none => lookupLoop rest kid t v now

/-- The `validation` value constructed at the top of `validate` (the spec's
per-call ValidationPolicy): RS256 only, audience the singleton project id,
issuer the configured issuer, expiration enforcement on. -/
def TokenValidator.policy (self : TokenValidator) : Validation :=
  { Validation.new Algorithm.RS256 with
      aud := some [self.firebase_project_id],
      iss := some self.firebase_project_issuer }

/-- `TokenValidator::validate` from src/lib.rs, with the network modelled as
the injected outcome of the one fetch this call can make.  Returns the call
result together with the number of outbound fetches performed. -/
def TokenValidator.validate (self : TokenValidator) (token : Token)
    (fetch : FetchOutcome) (now : Nat) : VResult × Nat :=
  let validation : Validation := self.policy
  match decode_header token with
  | Except.error k => (VResult.err (ValidationError.fromJwt k), 0)
  | Except.ok header =>
    match header.kid with
    | none =>
      (VResult.err (ValidationError.new "the token header did not contain a Key ID"), 0)
    | some kid =>
      match fetch with
      | FetchOutcome.sendError m => (VResult.err (ValidationError.fromSendRequest m), 1)
      | FetchOutcome.jsonError m => (VResult.err (ValidationError.fromJsonPayload m), 1)
      | FetchOutcome.ok keys => (lookupLoop keys.keys kid token validation now, 1)

/-- State-passing view of the `&self` method call: the receiver is taken by
shared reference and the method body only reads the configuration strings,
so the post-call validator state is the pre-call one. -/
def TokenValidator.validateCall (self : TokenValidator) (token : Token)
    (fetch : FetchOutcome) (now : Nat) : (VResult × Nat) × TokenValidator :=
  (self.validate token fetch now, self)

/-- The error `validate` returns when the header lacks a `kid`. -/
def missingKidError : ValidationError :=
  ValidationError.new "the token header did not contain a Key ID"

/-- The error `validate` returns when no key record matches the `kid`. -/
def keyNotFoundError : ValidationError :=
  ValidationError.new
    "token failed validation as the referenced public key could not be found"

/-- Spec §7 taxonomy: jsonwebtoken error kinds that count as a rejection of
the token itself (signature / claim-check / payload failures), as opposed to
a malformed token string. -/
def JwtErrorKind.isRejection : JwtErrorKind → Bool
  | JwtErrorKind.invalidToken => false
  | JwtErrorKind.invalidAlgorithm => true
  | JwtErrorKind.invalidSignature => true
  | JwtErrorKind.json => true
  | JwtErrorKind.expiredSignature => true
  | JwtErrorKind.invalidIssuer => true
  | JwtErrorKind.invalidAudience => true

/-- Spec §7 `TokenRejected`: the wrapped underlying error is a cryptographic
library rejection (bad signature, expired, audience/issuer mismatch,
malformed payload). -/
def ValidationError.isTokenRejected (err : ValidationError) : Bool :=
  match err.inner_error with
  | some (InnerError.jwt k) => k.isRejection
  | _ => false

/-- Spec §7 `TransportFailure`: the wrapped underlying error came from the
HTTP transport (`SendRequestError`). -/
def ValidationError.isTransportFailure (err : ValidationError) : Bool :=
  match err.inner_error with
  | some (InnerError.sendRequest _) => true
  | _ => false

/-- Spec §7 `KeySetFormatFailure`: the wrapped underlying error came from
parsing the key-set body (`JsonPayloadError`). -/
def ValidationError.isKeySetFormatFailure (err : ValidationError) : Bool :=
  match err.inner_error with
  | some (InnerError.jsonPayload _) => true
  | _ => false

/-- Spec §7 `MalformedInput`: the token string did not parse, or its header
lacked the key identifier. -/
def ValidationError.isMalformedInput (err : ValidationError) : Bool :=
  decide (err = ValidationError.fromJwt JwtErrorKind.invalidToken) ||
    decide (err = missingKidError)

/-! ## Concrete sample data for witnesses -/

/-- A concrete validator configuration. -/
def sampleValidator : TokenValidator :=
  { firebase_project_id := "proj"
    firebase_project_issuer := "https://securetoken.example/proj"
    firebase_public_keys_jwk_url := "https://example/keys" }

/-- A concrete payload matching `sampleValidator`: expires at 1000. -/
def sampleClaims : FirebaseClaims :=
  { exp := 1000, iat := some 1, aud := some "proj"
    iss := some "https://securetoken.example/proj", sub := some "user1"
    auth_time := none, name := none, picture := none, email := none
    email_verified := none, user_id := none, firebase := none }

/-- A concrete well-formed token with `kid = "abc"` whose signature verifies
exactly under the key components `("n1", "e1")`. -/
def sampleToken : Token :=
  { header_ok := true
    header := { alg := Algorithm.RS256, kid := some "abc" }
    payload_ok := true
    payload := sampleClaims
    sig_valid := fun n e => n == "n1" && e == "e1" }

/-- A token whose header segment does not decode. -/
def badToken : Token :=
  { sampleToken with header_ok := false }

/-- A token whose header decodes but carries no `kid`. -/
def noKidToken : Token :=
  { sampleToken with header := { alg := Algorithm.RS256, kid := none } }

/-- Key record with `kid = "abc"` and the components `sampleToken` verifies
under. -/
def key1 : KeyRecord := [("kid", "abc"), ("n", "n1"), ("e", "e1")]

/-- A second record with the same `kid` but different components. -/
def key2 : KeyRecord := [("kid", "abc"), ("n", "n2"), ("e", "e2")]

/-- A record that matches on `kid` but lacks the `n` and `e` fields. -/
def kidOnlyKey : KeyRecord := [("kid", "abc")]

/-- A record with no `kid` field at all. -/
def noKidKey : KeyRecord := [("n", "n9"), ("e", "e9")]

/-! ## Helper lemmas about the key-lookup loop -/

theorem lookupLoop_cons_skip (key : KeyRecord) (rest : List KeyRecord) (kid : String)
    (t : Token) (v : Validation) (now : Nat)
    (h : KeyRecord.get key "kid" ≠ some kid) :
    lookupLoop (key :: rest) kid t v now = lookupLoop rest kid t v now := by
  cases hg : KeyRecord.get key "kid" with
  | none => simp [lookupLoop, hg]
  | some ck =>
    have hne : kid ≠ ck := by
      intro hk
      exact h (hk ▸ hg)
    simp [lookupLoop, hg, hne]

theorem lookupLoop_cons_match (key : KeyRecord) (rest : List KeyRecord) (kid : String)
    (t : Token) (v : Validation) (now : Nat)
    (h : KeyRecord.get key "kid" = some kid) :
    lookupLoop (key :: rest) kid t v now = processKey key t v now := by
  simp [lookupLoop, h]

theorem lookupLoop_append_skip (L₁ L₂ : List KeyRecord) (kid : String)
    (t : Token) (v : Validation) (now : Nat)
    (h : ∀ r ∈ L₁, KeyRecord.get r "kid" ≠ some kid) :
    lookupLoop (L₁ ++ L₂) kid t v now = lookupLoop L₂ kid t v now := by
  induction L₁ with
  | nil => rfl
  | cons r rest ih =>
    rw [List.cons_append,
      lookupLoop_cons_skip r (rest ++ L₂) kid t v now (h r (List.mem_cons_self r rest)),
      ih (fun x hx => h x (List.mem_cons_of_mem r hx))]

theorem lookupLoop_no_match (ks : List KeyRecord) (kid : String)
    (t : Token) (v : Validation) (now : Nat)
    (h : ∀ r ∈ ks, KeyRecord.get r "kid" ≠ some kid) :
    lookupLoop ks kid t v now = VResult.err keyNotFoundError := by
  induction ks with
  | nil => rfl
  | cons r rest ih =>
    rw [lookupLoop_cons_skip r rest kid t v now (h r (List.mem_cons_self r rest))]
    exact ih (fun x hx => h x (List.mem_cons_of_mem r hx))

theorem validate_header_stage (self : TokenValidator) (t : Token) (keys : Keys)
    (now : Nat) (kid : String)
    (h_ok : t.header_ok = true) (h_kid : t.header.kid = some kid) :
    self.validate t (FetchOutcome.ok keys) now =
      (lookupLoop keys.keys kid t self.policy now, 1) := by
  unfold TokenValidator.validate decode_header
  rw [h_ok]
  simp [h_kid]

theorem processKey_decode (key : KeyRecord) (t : Token) (v : Validation) (now : Nat)
    (n e : String)
    (h_n : KeyRecord.get key "n" = some n) (h_e : KeyRecord.get key "e" = some e) :
    processKey key t v now =
      match decode t n e v now with
      | Except.ok claims => VResult.ok claims
      | Except.error k => VResult.err (ValidationError.fromJwt k) := by
  simp [processKey, h_n, h_e]

theorem decode_of_checks (t : Token) (n e : String) (v : Validation) (now : Nat)
    (h_ok : t.header_ok = true) (h_alg : t.header.alg ∈ v.algorithms)
    (h_sig : t.sig_valid n e = true) (h_pl : t.payload_ok = true) :
    decode t n e v now =
      match validateClaims t.payload v now with
      | Except.ok _ => Except.ok t.payload
      | Except.error k => Except.error k := by
  simp [decode, h_ok, h_alg, h_sig, h_pl]

theorem validateClaims_policy_ok (self : TokenValidator) (c : FirebaseClaims) (now : Nat)
    (h_exp : now < c.exp)
    (h_aud : c.aud = some self.firebase_project_id)
    (h_iss : c.iss = some self.firebase_project_issuer) :
    validateClaims c self.policy now = Except.ok () := by
  simp [validateClaims, TokenValidator.policy, Validation.new, h_aud, h_iss,
    Nat.not_le.mpr h_exp]

theorem validateClaims_policy_expired (self : TokenValidator) (c : FirebaseClaims) (now : Nat)
    (h_exp : c.exp ≤ now) :
    validateClaims c self.policy now = Except.error JwtErrorKind.expiredSignature := by
  simp [validateClaims, TokenValidator.policy, Validation.new, h_exp]

theorem validateClaims_policy_mismatch (self : TokenValidator) (c : FirebaseClaims) (now : Nat)
    (h_exp : now < c.exp)
    (h_mis : c.aud ≠ some self.firebase_project_id ∨
      c.iss ≠ some self.firebase_project_issuer) :
    validateClaims c self.policy now = Except.error JwtErrorKind.invalidIssuer ∨
      validateClaims c self.policy now = Except.error JwtErrorKind.invalidAudience := by
  by_cases hi : c.iss = some self.firebase_project_issuer
  · right
    have ha : c.aud ≠ some self.firebase_project_id := by
      cases h_mis with
      | inl h => exact h
      | inr h => exact absurd hi h
    cases hca : c.aud with
    | none =>
      simp [validateClaims, TokenValidator.policy, Validation.new,
        Nat.not_le.mpr h_exp, hi, hca]
    | some a =>
      have hne : a ≠ self.firebase_project_id := by
        intro hh
        exact ha (by rw [hca, hh])
      simp [validateClaims, TokenValidator.policy, Validation.new,
        Nat.not_le.mpr h_exp, hi, hca, hne]
  · left
    simp [validateClaims, TokenValidator.policy, Validation.new,
      Nat.not_le.mpr h_exp, hi]

theorem validate_to_claims_stage (self : TokenValidator) (t : Token)
    (L₁ L₂ : List KeyRecord) (key : KeyRecord) (now : Nat) (kid n e : String)
    (h_ok : t.header_ok = true) (h_kid : t.header.kid = some kid)
    (h_alg : t.header.alg = Algorithm.RS256) (h_pl : t.payload_ok = true)
    (h_before : ∀ r ∈ L₁, KeyRecord.get r "kid" ≠ some kid)
    (h_match : KeyRecord.get key "kid" = some kid)
    (h_n : KeyRecord.get key "n" = some n) (h_e : KeyRecord.get key "e" = some e)
    (h_sig : t.sig_valid n e = true) :
    self.validate t (FetchOutcome.ok ⟨L₁ ++ key :: L₂⟩) now =
      (match validateClaims t.payload self.policy now with
       | Except.ok _ => VResult.ok t.payload
       | Except.error k => VResult.err (ValidationError.fromJwt k), 1) := by
  rw [validate_header_stage self t ⟨L₁ ++ key :: L₂⟩ now kid h_ok h_kid,
    lookupLoop_append_skip L₁ (key :: L₂) kid t self.policy now h_before,
    lookupLoop_cons_match key L₂ kid t self.policy now h_match,
    processKey_decode key t self.policy now n e h_n h_e,
    decode_of_checks t n e self.policy now h_ok
      (by simp [h_alg, TokenValidator.policy, Validation.new]) h_sig h_pl]
  cases validateClaims t.payload self.policy now with
  | ok u => rfl
  | error k => rfl

/-! ## Claim theorems -/

/-- C4: for every token whose declared key identifier matches no record in
the fetched key set (the empty key list included), `validate` fails with the
SigningKeyNotFound error, regardless of the token's signature validity (the
token, and hence its `sig_valid` relation, is arbitrary). -/
theorem validate_signing_key_not_found (self : TokenValidator) (t : Token) (keys : Keys)
    (now : Nat) (kid : String)
    (h_ok : t.header_ok = true) (h_kid : t.header.kid = some kid)
    (h_none : ∀ r ∈ keys.keys, KeyRecord.get r "kid" ≠ some kid) :
    self.validate t (FetchOutcome.ok keys) now = (VResult.err keyNotFoundError, 1) := by
  rw [validate_header_stage self t keys now kid h_ok h_kid,
    lookupLoop_no_match keys.keys kid t self.policy now h_none]

theorem validate_signing_key_not_found_witness :
    sampleValidator.validate sampleToken (FetchOutcome.ok ⟨[]⟩) 5 =
      (VResult.err keyNotFoundError, 1) :=
  validate_signing_key_not_found sampleValidator sampleToken ⟨[]⟩ 5 "abc" rfl rfl
    (by simp)

/-- C5: key lookup scans the fetched records in document order and the first
record whose `kid` equals the header's key identifier is the one processed
(its components are the ones used for verification); records after it, even
with the same `kid`, do not affect the result. -/
theorem validate_first_match_selected (self : TokenValidator) (t : Token)
    (L₁ L₂ : List KeyRecord) (key : KeyRecord) (now : Nat) (kid : String)
    (h_ok : t.header_ok = true) (h_kid : t.header.kid = some kid)
    (h_before : ∀ r ∈ L₁, KeyRecord.get r "kid" ≠ some kid)
    (h_match : KeyRecord.get key "kid" = some kid) :
    self.validate t (FetchOutcome.ok ⟨L₁ ++ key :: L₂⟩) now =
      (processKey key t self.policy now, 1) := by
  rw [validate_header_stage self t ⟨L₁ ++ key :: L₂⟩ now kid h_ok h_kid,
    lookupLoop_append_skip L₁ (key :: L₂) kid t self.policy now h_before,
    lookupLoop_cons_match key L₂ kid t self.policy now h_match]

theorem validate_first_match_selected_witness :
    sampleValidator.validate sampleToken (FetchOutcome.ok ⟨[] ++ key1 :: [key2]⟩) 5 =
      (processKey key1 sampleToken sampleValidator.policy 5, 1) ∧
      processKey key1 sampleToken sampleValidator.policy 5 = VResult.ok sampleClaims :=
  ⟨validate_first_match_selected sampleValidator sampleToken [] [key2] key1 5 "abc"
      rfl rfl (by simp) (by decide),
    by decide⟩

/-- C10: a key record lacking a `kid` field is silently skipped during the
lookup: with such a record at the head of the key list, `validate` returns
exactly what it returns on the tail, so the record never fails the call by
itself and later records are still considered. -/
theorem validate_skips_record_without_kid (self : TokenValidator) (t : Token)
    (r : KeyRecord) (rest : List KeyRecord) (now : Nat) (kid : String)
    (h_ok : t.header_ok = true) (h_kid : t.header.kid = some kid)
    (h_r : KeyRecord.get r "kid" = none) :
    self.validate t (FetchOutcome.ok ⟨r :: rest⟩) now =
      self.validate t (FetchOutcome.ok ⟨rest⟩) now := by
  rw [validate_header_stage self t ⟨r :: rest⟩ now kid h_ok h_kid,
    validate_header_stage self t ⟨rest⟩ now kid h_ok h_kid,
    lookupLoop_cons_skip r rest kid t self.policy now (by simp [h_r])]

theorem validate_skips_record_without_kid_witness :
    sampleValidator.validate sampleToken (FetchOutcome.ok ⟨[noKidKey, key1]⟩) 5 =
      sampleValidator.validate sampleToken (FetchOutcome.ok ⟨[key1]⟩) 5 :=
  validate_skips_record_without_kid sampleValidator sampleToken noKidKey [key1] 5 "abc"
    rfl rfl (by decide)

/-- C1: contrary to the spec, when the record selected by the `kid` lookup
lacks the `n` (or `e`) field, `validate` does not return a typed error: the
`unwrap()` calls on `key.get("n")` / `key.get("e")` in src/lib.rs panic, an
unchecked fault escaping the call boundary.  Concretely, with key-set
document containing the single record with only a `kid` field, a token
declaring that `kid` makes the call panic. -/
theorem validate_panics_when_matched_key_lacks_components :
    sampleValidator.validate sampleToken (FetchOutcome.ok ⟨[kidOnlyKey]⟩) 5 =
      (VResult.panic "called Option unwrap on a None value", 1) := by
  decide

/-- C9: `validate` is idempotent and stateless: in the state-passing view of
the `&self` call, a second call with the same token, fetch outcome and time
returns the same result as the first, and neither call changes the
validator's configuration. -/
theorem validate_idempotent_and_stateless (self : TokenValidator) (t : Token)
    (fetch : FetchOutcome) (now : Nat) :
    (self.validateCall t fetch now).1 =
        ((self.validateCall t fetch now).2.validateCall t fetch now).1 ∧
      (self.validateCall t fetch now).2 = self ∧
      ((self.validateCall t fetch now).2.validateCall t fetch now).2 = self :=
  ⟨rfl, rfl, rfl⟩

/-- C3: for every token whose header segment does not decode, or whose
decoded header lacks a key identifier, `validate` fails with a
malformed-input error and performs zero outbound fetches. -/
theorem validate_malformed_input_no_fetch (self : TokenValidator) (t : Token)
    (fetch : FetchOutcome) (now : Nat)
    (h : t.header_ok = false ∨ t.header.kid = none) :
    ∃ err : ValidationError,
      self.validate t fetch now = (VResult.err err, 0) ∧ err.isMalformedInput = true := by
  cases h_ok : t.header_ok with
  | false =>
    refine ⟨ValidationError.fromJwt JwtErrorKind.invalidToken, ?_, by decide⟩
    simp [TokenValidator.validate, decode_header, h_ok]
  | true =>
    have h_kid : t.header.kid = none := by
      cases h with
      | inl hh => rw [h_ok] at hh; simp at hh
      | inr hh => exact hh
    refine ⟨missingKidError, ?_, by decide⟩
    simp [TokenValidator.validate, decode_header, h_ok, h_kid, missingKidError]

theorem validate_malformed_input_no_fetch_witness :
    ∃ err : ValidationError,
      sampleValidator.validate badToken (FetchOutcome.ok ⟨[key1]⟩) 5 =
        (VResult.err err, 0) ∧ err.isMalformedInput = true :=
  validate_malformed_input_no_fetch sampleValidator badToken (FetchOutcome.ok ⟨[key1]⟩) 5
    (Or.inl rfl)

/-- C6: for every token whose header decodes but carries no key identifier,
`validate` fails with the missing-key-identifier error (and zero fetches);
that error is classified malformed input, and is neither a transport failure
nor a cryptographic token rejection. -/
theorem validate_missing_kid_malformed (self : TokenValidator) (t : Token)
    (fetch : FetchOutcome) (now : Nat)
    (h_ok : t.header_ok = true) (h_kid : t.header.kid = none) :
    self.validate t fetch now = (VResult.err missingKidError, 0) ∧
      missingKidError.isMalformedInput = true ∧
      missingKidError.isTransportFailure = false ∧
      missingKidError.isTokenRejected = false := by
  refine ⟨?_, by decide, by decide, by decide⟩
  simp [TokenValidator.validate, decode_header, h_ok, h_kid, missingKidError]

theorem validate_missing_kid_malformed_witness :
    sampleValidator.validate noKidToken (FetchOutcome.ok ⟨[key1]⟩) 5 =
        (VResult.err missingKidError, 0) ∧
      missingKidError.isMalformedInput = true ∧
      missingKidError.isTransportFailure = false ∧
      missingKidError.isTokenRejected = false :=
  validate_missing_kid_malformed sampleValidator noKidToken (FetchOutcome.ok ⟨[key1]⟩) 5
    rfl rfl

/-- C2: for every well-formed token (header and payload decode, RS256)
signed by a key present in the fetched key set (the first record matching
its `kid`, carrying components the signature verifies under), whose audience
and issuer equal the configured values and whose expiration is strictly in
the future, `validate` returns `Ok` with exactly the token's payload as the
Claims value. -/
theorem validate_ok_on_valid_token (self : TokenValidator) (t : Token)
    (L₁ L₂ : List KeyRecord) (key : KeyRecord) (now : Nat) (kid n e : String)
    (h_ok : t.header_ok = true) (h_kid : t.header.kid = some kid)
    (h_alg : t.header.alg = Algorithm.RS256) (h_pl : t.payload_ok = true)
    (h_before : ∀ r ∈ L₁, KeyRecord.get r "kid" ≠ some kid)
    (h_match : KeyRecord.get key "kid" = some kid)
    (h_n : KeyRecord.get key "n" = some n) (h_e : KeyRecord.get key "e" = some e)
    (h_sig : t.sig_valid n e = true)
    (h_exp : now < t.payload.exp)
    (h_aud : t.payload.aud = some self.firebase_project_id)
    (h_iss : t.payload.iss = some self.firebase_project_issuer) :
    self.validate t (FetchOutcome.ok ⟨L₁ ++ key :: L₂⟩) now = (VResult.ok t.payload, 1) := by
  rw [validate_to_claims_stage self t L₁ L₂ key now kid n e
      h_ok h_kid h_alg h_pl h_before h_match h_n h_e h_sig,
    validateClaims_policy_ok self t.payload now h_exp h_aud h_iss]

theorem validate_ok_on_valid_token_witness :
    sampleValidator.validate sampleToken (FetchOutcome.ok ⟨[key1]⟩) 5 =
      (VResult.ok sampleClaims, 1) :=
  validate_ok_on_valid_token sampleValidator sampleToken [] [] key1 5 "abc" "n1" "e1"
    rfl rfl rfl rfl (by simp) (by decide) (by decide) (by decide) (by decide)
    (by decide) rfl rfl

/-- C7: a token whose expiration is less than or equal to the current time
is rejected with the expired-token error (a TokenRejected condition), even
when its signature is valid and its signing key is the first match in the
fetched key set. -/
theorem validate_rejects_expired (self : TokenValidator) (t : Token)
    (L₁ L₂ : List KeyRecord) (key : KeyRecord) (now : Nat) (kid n e : String)
    (h_ok : t.header_ok = true) (h_kid : t.header.kid = some kid)
    (h_alg : t.header.alg = Algorithm.RS256) (h_pl : t.payload_ok = true)
    (h_before : ∀ r ∈ L₁, KeyRecord.get r "kid" ≠ some kid)
    (h_match : KeyRecord.get key "kid" = some kid)
    (h_n : KeyRecord.get key "n" = some n) (h_e : KeyRecord.get key "e" = some e)
    (h_sig : t.sig_valid n e = true)
    (h_exp : t.payload.exp ≤ now) :
    self.validate t (FetchOutcome.ok ⟨L₁ ++ key :: L₂⟩) now =
        (VResult.err (ValidationError.fromJwt JwtErrorKind.expiredSignature), 1) ∧
      (ValidationError.fromJwt JwtErrorKind.expiredSignature).isTokenRejected = true := by
  refine ⟨?_, by decide⟩
  rw [validate_to_claims_stage self t L₁ L₂ key now kid n e
      h_ok h_kid h_alg h_pl h_before h_match h_n h_e h_sig,
    validateClaims_policy_expired self t.payload now h_exp]

theorem validate_rejects_expired_witness :
    sampleValidator.validate sampleToken (FetchOutcome.ok ⟨[key1]⟩) 1000 =
        (VResult.err (ValidationError.fromJwt JwtErrorKind.expiredSignature), 1) ∧
      (ValidationError.fromJwt JwtErrorKind.expiredSignature).isTokenRejected = true :=
  validate_rejects_expired sampleValidator sampleToken [] [] key1 1000 "abc" "n1" "e1"
    rfl rfl rfl rfl (by simp) (by decide) (by decide) (by decide) (by decide)
    (by decide)

/-- C8: a token whose audience differs from the configured project id, or
whose issuer differs from the configured issuer, is rejected with a
TokenRejected error, even when its signature is valid, its signing key is
the first match in the fetched key set, and it is unexpired. -/
theorem validate_rejects_aud_iss_mismatch (self : TokenValidator) (t : Token)
    (L₁ L₂ : List KeyRecord) (key : KeyRecord) (now : Nat) (kid n e : String)
    (h_ok : t.header_ok = true) (h_kid : t.header.kid = some kid)
    (h_alg : t.header.alg = Algorithm.RS256) (h_pl : t.payload_ok = true)
    (h_before : ∀ r ∈ L₁, KeyRecord.get r "kid" ≠ some kid)
    (h_match : KeyRecord.get key "kid" = some kid)
    (h_n : KeyRecord.get key "n" = some n) (h_e : KeyRecord.get key "e" = some e)
    (h_sig : t.sig_valid n e = true)
    (h_exp : now < t.payload.exp)
    (h_mis : t.payload.aud ≠ some self.firebase_project_id ∨
      t.payload.iss ≠ some self.firebase_project_issuer) :
    ∃ err : ValidationError,
      self.validate t (FetchOutcome.ok ⟨L₁ ++ key :: L₂⟩) now = (VResult.err err, 1) ∧
        err.isTokenRejected = true := by
  have base := validate_to_claims_stage self t L₁ L₂ key now kid n e
    h_ok h_kid h_alg h_pl h_before h_match h_n h_e h_sig
  cases validateClaims_policy_mismatch self t.payload now h_exp h_mis with
  | inl h =>
    exact ⟨ValidationError.fromJwt JwtErrorKind.invalidIssuer,
      by rw [base, h], by decide⟩
  | inr h =>
    exact ⟨ValidationError.fromJwt JwtErrorKind.invalidAudience,
      by rw [base, h], by decide⟩

theorem validate_rejects_aud_iss_mismatch_witness :
    ∃ err : ValidationError,
      sampleValidator.validate
          { sampleToken with payload := { sampleClaims with aud := some "otherproj" } }
          (FetchOutcome.ok ⟨[key1]⟩) 5 = (VResult.err err, 1) ∧
        err.isTokenRejected = true :=
  validate_rejects_aud_iss_mismatch sampleValidator
    { sampleToken with payload := { sampleClaims with aud := some "otherproj" } }
    [] [] key1 5 "abc" "n1" "e1"
    rfl rfl rfl rfl (by simp) (by decide) (by decide) (by decide) (by decide)
    (by decide) (Or.inl (by decide))

end FirebaseAuth
